import Mathlib

/-!
Verification of the server-side logic of the Ai_Gemimmi_suite repository
(`src/server.js`), a small Express application that authenticates users
against a flat-file JSON credential store, extracts text from uploaded
documents, optionally uploads files to an object store, and forwards an
assembled prompt to an external generative-language API.

Modelling conventions:
* JavaScript strings are modelled as `List Char`; the empty list models
  both the empty string and an absent (`undefined`) value, matching the
  truthiness tests (`!s`) the source performs on every string it branches on.
* External libraries (pdf-parse, mammoth, csv-parse, xlsx, mime-types,
  base64/utf8 buffer decoding, JSON parsing) are modelled as oracle
  function parameters gathered in the `Extractors` structure: the claims
  under verification are about the dispatch and assembly logic of the
  server, not about those libraries.
* Environment configuration (`process.env`) is a function from variable
  names to values, `[]` meaning unset or empty (both falsy in the source).
* Outbound network I/O (the object-store PUT and the generative API call)
  is made observable as a list of `NetCall` values returned alongside each
  handler's response; file-system access to the credential store is made
  observable as a list of `FsOp` values.
-/

/-- `truncateText` from src/server.js lines 107-111: empty text maps to the
empty string; text of length at most `limit` is returned unchanged; longer
text is cut to `limit` characters and a marker naming the omitted count is
appended. All call sites use the default limit 12000, passed explicitly here. -/
def truncateText (text : List Char) (limit : Nat) : List Char :=
  if text = [] then []
  else if text.length ≤ limit then text
  else text.take limit ++ "\n\n[Truncated ".data
    ++ Nat.toDigits 10 (text.length - limit) ++ " chars]".data

/-- The marker appended by `truncateText` when it cuts, stating the number of
omitted characters (the interpolated template on line 110 of src/server.js). -/
def truncMarker (omitted : Nat) : List Char :=
  "\n\n[Truncated ".data ++ Nat.toDigits 10 omitted ++ " chars]".data

/-- JavaScript `String.prototype.startsWith`: `startsWithSeg hay pre` holds
when `pre` is an initial segment of `hay`. -/
def startsWithSeg : List Char → List Char → Bool
  | _, [] => true
  | [], _ :: _ => false
  | a :: as, b :: bs => a == b && startsWithSeg as bs

/-- `containsSeg hay seg` holds when `seg` occurs contiguously in `hay`
(JavaScript `String.prototype.includes`). -/
def containsSeg : List Char → List Char → Bool
  | [], seg => startsWithSeg [] seg
  | c :: t, seg => startsWithSeg (c :: t) seg || containsSeg t seg

/-- Node's `path.extname` restricted to names without a path separator (the
only use in src/server.js line 132 is on an upload's original name): the
suffix starting at the last dot, or empty when there is no dot or the only
dot is the leading character (a dotfile has no extension). -/
def extname (name : List Char) : List Char :=
  if name.contains '.' then
    let i := name.length - 1 - (name.reverse.indexOf '.')
    if i = 0 then [] else name.drop i
  else []

/-- src/server.js line 132: `path.extname(file.originalname).toLowerCase()`. -/
def extLower (name : List Char) : List Char :=
  (extname name).map Char.toLower

/-- An uploaded file as the handlers see it (multer): original client name,
declared MIME type ([] when absent), and the bytes read back from disk. -/
structure UploadedFile where
  originalname : List Char
  mimetype : List Char
  bytes : List Char
deriving DecidableEq

/-- The inline-image half of an extraction result (src/server.js 138-141):
a MIME type and the base64-encoded bytes. -/
structure InlineImage where
  mimeType : List Char
  data : List Char
deriving DecidableEq

/-- Result shape of `extractFromFile` (src/server.js 129-167). -/
structure Extracted where
  text : List Char
  inlineImage : Option InlineImage
deriving DecidableEq

/-- A CSV record as produced by csv-parse with `columns: true`: a list of
column-name/value pairs. Its internals are irrelevant to the server logic,
which only slices the record list and hands it to JSON serialization. -/
def CsvRecord : Type := List (List Char × List Char)

instance : DecidableEq CsvRecord := by
  unfold CsvRecord
  exact inferInstance

/-- An xlsx workbook as the server uses it (src/server.js 159-161): the
ordered sheet names and a map from sheet name to its CSV rendering
(`xlsx.utils.sheet_to_csv` composed with the sheet lookup). -/
structure Workbook where
  sheetNames : List (List Char)
  sheetCsv : List Char → List Char

/-- Oracles for the external libraries the server calls: pdf-parse, mammoth,
csv-parse, xlsx, JSON.stringify, buffer base64/utf8 decoding, and
mime-types lookup ([] models a failed lookup, which is falsy in the source). -/
structure Extractors where
  pdfText : List Char → List Char
  docxText : List Char → List Char
  csvRecords : List Char → List CsvRecord
  jsonStringify : List CsvRecord → List Char
  xlsxRead : List Char → Workbook
  base64 : List Char → List Char
  utf8 : List Char → List Char
  mimeLookup : List Char → List Char

/-- src/server.js line 133: `file.mimetype || mime.lookup(file.originalname) || ''`. -/
def fileMime (E : Extractors) (f : UploadedFile) : List Char :=
  if f.mimetype = [] then E.mimeLookup f.originalname else f.mimetype

/-- `extractFromFile` from src/server.js lines 129-167: dispatch on MIME type
then extension, producing text (truncated to 12000 characters) or an inline
base64 image. -/
def extractFromFile (E : Extractors) (file : Option UploadedFile) : Extracted :=
  match file with
  | none => ⟨[], none⟩
  | some f =>
    let buffer := f.bytes
    let ext := extLower f.originalname
    let mimeType := fileMime E f
    if startsWithSeg mimeType "image/".data then
      ⟨[], some ⟨mimeType, E.base64 buffer⟩⟩
    else if ext = ".pdf".data then
      ⟨truncateText (E.pdfText buffer) 12000, none⟩
    else if ext = ".docx".data then
      ⟨truncateText (E.docxText buffer) 12000, none⟩
    else if ext = ".csv".data then
      let records := E.csvRecords buffer
      let preview := E.jsonStringify (records.take 30)
      ⟨truncateText ("CSV preview (first rows):\n".data ++ preview) 12000, none⟩
    else if ext = ".xlsx".data then
      let wb := E.xlsxRead buffer
      let csv := wb.sheetCsv (wb.sheetNames.headD [])
      ⟨truncateText ("XLSX preview (CSV):\n".data ++ csv) 12000, none⟩
    else
      ⟨truncateText (E.utf8 buffer) 12000, none⟩

/-- A concrete oracle bundle used only to witness the dispatch theorems on
concrete files; every component is a simple total function. -/
def testOracles : Extractors where
  pdfText := fun _ => "pdf text".data
  docxText := fun _ => "docx text".data
  csvRecords := fun _ => []
  jsonStringify := fun _ => "[]".data
  xlsxRead := fun _ => ⟨["Sheet1".data], fun _ => "a,b".data⟩
  base64 := fun b => b
  utf8 := fun b => b
  mimeLookup := fun _ => []

/-- Server-side session state (express-session): the authenticated user id
and the cached nickname; `[]` models an unset field, matching the
truthiness checks (`!req.session.uid`) in src/server.js. -/
structure Session where
  uid : List Char
  nickname : List Char
deriving DecidableEq

/-- One record of the flat-file credential store: src/server.js stores
`uid`, `password` and an optional `nickname` per user; `[]` models a
missing or empty nickname (both falsy wherever the source tests it). -/
structure UserRec where
  uid : List Char
  password : List Char
  nickname : List Char
deriving DecidableEq

/-- The parsed shape of data/users.json. -/
structure Store where
  users : List UserRec
deriving DecidableEq

/-- `readUsers` from src/server.js lines 60-71: a missing file yields the
empty store; an empty file is parsed as the literal empty-store JSON text;
a parse failure (the catch branch) also yields the empty store. The file
system is `Option` file contents and `JSON.parse` an oracle returning
`none` exactly when it would throw. -/
def readUsers (jsonParse : List Char → Option Store)
    (fsFile : Option (List Char)) : Store :=
  match fsFile with
  | none => ⟨[]⟩
  | some raw =>
    match jsonParse (if raw = [] then "\x7b\"users\":[]\x7d".data else raw) with
    | none => ⟨[]⟩
    | some d => d

/-- Response of POST /api/login (src/server.js 225-244): an HTTP status, the
error body when present, the `ok` flag and the `needsNickname` flag of the
success body. -/
structure LoginResp where
  status : Nat
  error : Option (List Char)
  ok : Bool
  needsNickname : Option Bool
deriving DecidableEq

/-- The login handler (src/server.js lines 225-244) applied to the store it
read: missing uid or password yields 400; an exact uid/password match is
looked up with `find`; no match yields 401 and leaves the session alone; a
match populates the session and reports whether a nickname is still needed. -/
def login (data : Store) (sess : Session) (uid password : List Char) :
    LoginResp × Session :=
  if uid = [] ∨ password = [] then
    (⟨400, some "UID and password required".data, false, none⟩, sess)
  else
    match data.users.find? (fun u => u.uid == uid && u.password == password) with
    | none => (⟨401, some "Invalid credentials".data, false, none⟩, sess)
    | some u =>
      (⟨200, none, true, some (u.nickname == [])⟩, ⟨u.uid, u.nickname⟩)

/-- Response of GET /api/session (src/server.js 253-259). -/
structure SessResp where
  authenticated : Bool
  uid : Option (List Char)
  nickname : Option (List Char)
deriving DecidableEq

/-- The session handler (src/server.js lines 253-259): reports `!!uid`, and
each field or null when the field is falsy. -/
def sessionHandler (sess : Session) : SessResp :=
  ⟨sess.uid != [],
   if sess.uid = [] then none else some sess.uid,
   if sess.nickname = [] then none else some sess.nickname⟩

/-- JavaScript `String.prototype.trim` on our character-list strings. -/
def trimJs (s : List Char) : List Char :=
  ((s.dropWhile Char.isWhitespace).reverse.dropWhile Char.isWhitespace).reverse

/-- The in-place mutation on src/server.js line 276: `find` located the first
record with the session's uid and its nickname field is overwritten; later
records with the same uid are untouched. -/
def setNicknameFirst : List UserRec → List Char → List Char → List UserRec
  | [], _, _ => []
  | u :: rest, uid, nick =>
    if u.uid = uid then { u with nickname := nick } :: rest
    else u :: setNicknameFirst rest uid nick

/-- Response of POST /api/nickname (src/server.js 261-280). -/
structure NickResp where
  status : Nat
  error : Option (List Char)
  ok : Bool
  nickname : Option (List Char)
deriving DecidableEq

/-- Observable credential-store file operations. -/
inductive FsOp where
  | read
  | write
deriving DecidableEq

/-- Everything the nickname handler produces: its HTTP response, the store
file contents after the request, the session after the request, and the
file operations it performed, in order. -/
structure NickOutcome where
  resp : NickResp
  store : Store
  sess : Session
  fsOps : List FsOp
deriving DecidableEq

/-- The nickname handler (src/server.js lines 261-280): 401 when the session
has no uid, 400 when the trimmed nickname is empty — both before any store
access; otherwise the store is read, the user looked up (404 when absent),
the first matching record's nickname overwritten, the store rewritten, and
the session nickname updated. `data` is the store the read would return. -/
def nicknameHandler (data : Store) (sess : Session) (raw : List Char) :
    NickOutcome :=
  if sess.uid = [] then
    ⟨⟨401, some "Not authenticated".data, false, none⟩, data, sess, []⟩
  else
    let nickname := trimJs raw
    if nickname = [] then
      ⟨⟨400, some "Nickname required".data, false, none⟩, data, sess, []⟩
    else
      match data.users.find? (fun u => u.uid == sess.uid) with
      | none =>
        ⟨⟨404, some "User not found".data, false, none⟩, data, sess, [FsOp.read]⟩
      | some _ =>
        ⟨⟨200, none, true, some nickname⟩,
         ⟨setNicknameFirst data.users sess.uid nickname⟩,
         ⟨sess.uid, nickname⟩,
         [FsOp.read, FsOp.write]⟩

/-- `process.env`: a total map from variable names to values, `[]` meaning
unset or empty (both falsy wherever the source tests configuration). -/
def Env : Type := List Char → List Char

/-- A multi-part message part sent to the generative API (src/server.js
303-320): a text part or an inline-data (base64 image) part. -/
inductive MsgPart where
  | text (t : List Char)
  | inlineData (mimeType : List Char) (data : List Char)
deriving DecidableEq

/-- An observable outbound network call of the bot endpoint: the object-store
PUT issued by `uploadToR2`, or the generative API POST with its model, its
system instruction, and the assembled user parts. -/
inductive NetCall where
  | r2Put (bucket : List Char) (key : List Char) (contentType : List Char)
  | generate (model : List Char) (systemInstruction : List Char) (parts : List MsgPart)
deriving DecidableEq

/-- src/server.js line 97: `r2Enabled` is the conjunction of the four
object-store settings being configured (truthy). -/
def r2Enabled (env : Env) : Bool :=
  env "R2_ENDPOINT".data != [] && env "R2_ACCESS_KEY_ID".data != [] &&
  env "R2_SECRET_ACCESS_KEY".data != [] && env "R2_BUCKET".data != []

/-- The regex replace on src/server.js line 124: drop one trailing slash. -/
def stripTrailingSlash (s : List Char) : List Char :=
  match s.reverse with
  | '/' :: r => r.reverse
  | _ => s

/-- The object key of src/server.js line 115; `nowRand` stands for the
`Date.now()`-and-random-hex portion. -/
def r2Key (nowRand : List Char) (f : UploadedFile) : List Char :=
  "uploads/".data ++ nowRand ++ "-".data ++ f.originalname

/-- The content-type fallback chain of src/server.js line 116. -/
def r2ContentType (E : Extractors) (f : UploadedFile) : List Char :=
  if f.mimetype ≠ [] then f.mimetype
  else if E.mimeLookup f.originalname ≠ [] then E.mimeLookup f.originalname
  else "application/octet-stream".data

/-- `uploadToR2` from src/server.js lines 113-127, with the outbound PUT made
observable. When the client is disabled (not all four settings present) it
returns null and performs no I/O; otherwise it PUTs, then returns the
public URL only when `R2_PUBLIC_URL` is configured, and null otherwise. -/
def uploadToR2 (env : Env) (E : Extractors) (nowRand : List Char)
    (f : UploadedFile) : Option (List Char) × List NetCall :=
  if r2Enabled env = false then (none, [])
  else
    let key := r2Key nowRand f
    let call := NetCall.r2Put (env "R2_BUCKET".data) key (r2ContentType E f)
    if env "R2_PUBLIC_URL".data ≠ [] then
      (some (stripTrailingSlash (env "R2_PUBLIC_URL".data) ++ "/".data ++ key), [call])
    else
      (none, [call])

/-- `buildSystemPrompt` from src/server.js lines 169-184: one fixed template
per bot id, the `data` template interpolating the chart type when present. -/
def buildSystemPrompt (botId chartType : List Char) : List Char :=
  if botId = "image".data then
    ("You are an image generation assistant. " ++
      "Return a concise caption plus the generated image.").data
  else if botId = "report".data then
    ("You are a report generation assistant. " ++
      "Return a structured report with title, executive summary, sections, " ++
      "key findings, and conclusion.").data
  else if botId = "paper".data then
    ("You are an academic paper analysis assistant. " ++
      "Return objective, methods, key results, limitations, and future work.").data
  else if botId = "data".data then
    ("You are a data analytics assistant. " ++
      "Provide dataset overview, descriptive stats, patterns, and insights. ").data ++
    (if chartType ≠ [] then
      "Include output for a ".data ++ chartType ++ " chart.".data
    else "Include a recommended chart type.".data)
  else "You are an assistant.".data

/-- The literal marker prefixed to extracted file text on src/server.js
line 308. -/
def fileContentMarker : List Char := "\n\n[File Content]\n".data

/-- The parts assembly of src/server.js lines 303-320: push the user text if
non-empty, then the extracted file text behind the file-content marker if
non-empty, then the inline image if present; if nothing was pushed,
substitute the single placeholder part. -/
def assembleParts (userText : List Char) (extracted : Extracted) : List MsgPart :=
  let p1 := if userText ≠ [] then [MsgPart.text userText] else []
  let p2 := if extracted.text ≠ [] then
      [MsgPart.text (fileContentMarker ++ extracted.text)]
    else []
  let p3 := match extracted.inlineImage with
    | some im => [MsgPart.inlineData im.mimeType im.data]
    | none => []
  let parts := p1 ++ p2 ++ p3
  if parts = [] then [MsgPart.text "No input provided.".data] else parts

/-- The environment-variable naming convention of src/server.js lines
288-289: `BOT_<ID upper-cased><suffix>`. -/
def botEnvVar (botId suffix : List Char) : List Char :=
  "BOT_".data ++ botId.map Char.toUpper ++ suffix

/-- The body of POST /api/bot/:botId as parsed by the handler (src/server.js
296-298): optional text, optional chart type, optional uploaded file. -/
structure BotReq where
  text : List Char
  chartType : List Char
  file : Option UploadedFile

/-- Observable outcome of one bot request: HTTP status, error body if any,
the outbound calls in order, the user parts sent to the generative API
(none when no call was made), and the returned object-store URL. -/
structure BotOutcome where
  status : Nat
  error : Option (List Char)
  calls : List NetCall
  sentParts : Option (List MsgPart)
  fileUrl : Option (List Char)
deriving DecidableEq

/-- The handler of POST /api/bot/:botId (src/server.js lines 282-360): 401
without any work when the session has no uid; 501 without any outbound call
when the bot's model or key setting is missing; otherwise extract from the
file, upload it to the object store, build the system prompt, assemble the
parts and call the generative API. The external call's result is an oracle
pair `(apiOk, apiStatus)` standing for `response.ok` / `response.status`;
response-body normalization and the catch branch are outside the verified
claims and not modelled. -/
def botHandler (env : Env) (E : Extractors) (nowRand : List Char)
    (apiOk : Bool) (apiStatus : Nat) (sess : Session) (botId : List Char)
    (req : BotReq) : BotOutcome :=
  if sess.uid = [] then
    ⟨401, some "Not authenticated".data, [], none, none⟩
  else
    let model := env (botEnvVar botId "_MODEL".data)
    let key := env (botEnvVar botId "_KEY".data)
    if model = [] ∨ key = [] then
      ⟨501, some "Bot API not configured".data, [], none, none⟩
    else
      let extracted := extractFromFile E req.file
      let fu := match req.file with
        | some f => uploadToR2 env E nowRand f
        | none => (none, [])
      let systemPrompt := buildSystemPrompt botId req.chartType
      let parts := assembleParts req.text extracted
      if apiOk then
        ⟨200, none, fu.2 ++ [NetCall.generate model systemPrompt parts],
          some parts, fu.1⟩
      else
        ⟨apiStatus, some "Bot request failed".data,
          fu.2 ++ [NetCall.generate model systemPrompt parts], some parts, fu.1⟩

/-- The multer fileFilter of src/server.js lines 89-94: an error for audio
and video MIME types, acceptance otherwise. -/
def fileFilter (f : UploadedFile) : Option (List Char) :=
  if startsWithSeg f.mimetype "audio/".data || startsWithSeg f.mimetype "video/".data then
    some "Audio/video files are not supported.".data
  else none

/-- The error-handling middleware of src/server.js lines 362-368: any
middleware error becomes a 400 whose body carries `err.message`, or the
generic upload-failure message when that is empty. -/
def errorMiddleware (msg : List Char) : Nat × List Char :=
  (400, if msg = [] then "Upload failed".data else msg)

/-- The full route pipeline of POST /api/bot/:botId: multer's fileFilter runs
before the handler; a rejected upload short-circuits into the error
middleware and the handler (and with it the extraction pipeline and every
outbound call) never runs. -/
def botPipeline (env : Env) (E : Extractors) (nowRand : List Char)
    (apiOk : Bool) (apiStatus : Nat) (sess : Session) (botId : List Char)
    (req : BotReq) : BotOutcome :=
  match req.file with
  | some f =>
    match fileFilter f with
    | some msg =>
      ⟨(errorMiddleware msg).1, some (errorMiddleware msg).2, [], none, none⟩
    | none => botHandler env E nowRand apiOk apiStatus sess botId req
  | none => botHandler env E nowRand apiOk apiStatus sess botId req

/-- A concrete environment with nothing configured. -/
def envEmpty : Env := fun _ => []

/-- A concrete environment with the four object-store settings configured but
no public base URL. -/
def envR2NoPublic : Env := fun name =>
  if name = "R2_ENDPOINT".data then "https://acct.example".data
  else if name = "R2_ACCESS_KEY_ID".data then "ak".data
  else if name = "R2_SECRET_ACCESS_KEY".data then "sk".data
  else if name = "R2_BUCKET".data then "bkt".data
  else []

/-- A concrete environment configuring only bot `data`. -/
def envBotData : Env := fun name =>
  if name = "BOT_DATA_MODEL".data then "gemini-2.0".data
  else if name = "BOT_DATA_KEY".data then "key123".data
  else []

/-- C1: for input longer than 12000 characters, `truncateText` returns the
first 12000 characters followed by the marker stating the exact omitted count
(input length minus 12000), and the output length is 12000 plus the marker
length; input of length at most 12000 is returned unchanged. -/
theorem truncateText_spec (t : List Char) :
    (t.length > 12000 →
      truncateText t 12000 = t.take 12000 ++ truncMarker (t.length - 12000) ∧
      (truncateText t 12000).length = 12000 + (truncMarker (t.length - 12000)).length) ∧
    (t.length ≤ 12000 → truncateText t 12000 = t) := by
  constructor
  · intro h
    have hne : t ≠ [] := by
      intro he
      rw [he] at h
      exact absurd h (by decide)
    have hgt : ¬ t.length ≤ 12000 := Nat.not_le.mpr h
    have heq : truncateText t 12000 = t.take 12000 ++ truncMarker (t.length - 12000) := by
      simp only [truncateText, truncMarker, if_neg hne, if_neg hgt, List.append_assoc]
    refine ⟨heq, ?_⟩
    rw [heq, List.length_append, List.length_take,
      Nat.min_eq_left (Nat.le_of_lt h)]
  · intro h
    by_cases hne : t = []
    · subst hne
      rfl
    · simp only [truncateText, if_neg hne, if_pos h]

/-- Witness for C1: a concrete 12001-character input is truncated to the
12000-character bound plus marker, and a short input passes unchanged. -/
theorem truncateText_spec_witness :
    (truncateText (List.replicate 12001 'a') 12000 =
      (List.replicate 12001 'a').take 12000 ++ truncMarker 1) ∧
    truncateText "hi".data 12000 = "hi".data := by
  refine ⟨?_, ?_⟩
  · have h := (truncateText_spec (List.replicate 12001 'a')).1
      (by rw [List.length_replicate]; decide)
    rw [List.length_replicate] at h
    exact h.1
  · exact (truncateText_spec "hi".data).2 (by decide)

theorem startsWithSeg_self (l : List Char) : startsWithSeg l l = true := by
  induction l with
  | nil => rfl
  | cons c t ih => simp [startsWithSeg, ih]

theorem containsSeg_append_right (a b : List Char) :
    containsSeg (a ++ b) b = true := by
  induction a with
  | nil =>
    cases b with
    | nil => rfl
    | cons c t => simp [containsSeg, startsWithSeg_self]
  | cons c t ih =>
    cases ht : t ++ b with
    | nil => simp [containsSeg, List.cons_append, ht, ht ▸ ih]
    | cons d u => simp [containsSeg, List.cons_append, ht, ht ▸ ih]

/-- C2: `extractFromFile` dispatches in priority order — image MIME type
first (raw bytes base64-encoded as an inline image, empty text), then by
lower-cased extension: `.pdf` (PDF text), `.docx` (raw document text),
`.csv` (at most the first 30 parsed records serialized as a preview),
`.xlsx` (first sheet rendered as CSV), anything else decoded as UTF-8; and
every non-image branch has a null inline image and text that passed through
the 12000-character truncation. -/
theorem extractFromFile_dispatch_spec (E : Extractors) (f : UploadedFile) :
    (startsWithSeg (fileMime E f) "image/".data = true →
      extractFromFile E (some f) = ⟨[], some ⟨fileMime E f, E.base64 f.bytes⟩⟩) ∧
    (startsWithSeg (fileMime E f) "image/".data = false →
      (extLower f.originalname = ".pdf".data →
        extractFromFile E (some f) = ⟨truncateText (E.pdfText f.bytes) 12000, none⟩) ∧
      (extLower f.originalname = ".docx".data →
        extractFromFile E (some f) = ⟨truncateText (E.docxText f.bytes) 12000, none⟩) ∧
      (extLower f.originalname = ".csv".data →
        extractFromFile E (some f) =
          ⟨truncateText ("CSV preview (first rows):\n".data ++
            E.jsonStringify ((E.csvRecords f.bytes).take 30)) 12000, none⟩) ∧
      (extLower f.originalname = ".xlsx".data →
        extractFromFile E (some f) =
          ⟨truncateText ("XLSX preview (CSV):\n".data ++
            (E.xlsxRead f.bytes).sheetCsv ((E.xlsxRead f.bytes).sheetNames.headD []))
            12000, none⟩) ∧
      (extLower f.originalname ∉
          ([".pdf".data, ".docx".data, ".csv".data, ".xlsx".data] : List (List Char)) →
        extractFromFile E (some f) = ⟨truncateText (E.utf8 f.bytes) 12000, none⟩) ∧
      ((extractFromFile E (some f)).inlineImage = none ∧
        ∃ raw, (extractFromFile E (some f)).text = truncateText raw 12000)) := by
  have hunfold : extractFromFile E (some f) =
      (if startsWithSeg (fileMime E f) "image/".data then
        (⟨[], some ⟨fileMime E f, E.base64 f.bytes⟩⟩ : Extracted)
      else if extLower f.originalname = ".pdf".data then
        ⟨truncateText (E.pdfText f.bytes) 12000, none⟩
      else if extLower f.originalname = ".docx".data then
        ⟨truncateText (E.docxText f.bytes) 12000, none⟩
      else if extLower f.originalname = ".csv".data then
        ⟨truncateText ("CSV preview (first rows):\n".data ++
          E.jsonStringify ((E.csvRecords f.bytes).take 30)) 12000, none⟩
      else if extLower f.originalname = ".xlsx".data then
        ⟨truncateText ("XLSX preview (CSV):\n".data ++
          (E.xlsxRead f.bytes).sheetCsv ((E.xlsxRead f.bytes).sheetNames.headD []))
          12000, none⟩
      else ⟨truncateText (E.utf8 f.bytes) 12000, none⟩) := rfl
  constructor
  · intro himg
    rw [hunfold, if_pos himg]
  · intro himg
    have himg' : ¬ (startsWithSeg (fileMime E f) "image/".data = true) := by
      rw [himg]
      exact Bool.false_ne_true
    rw [hunfold, if_neg himg']
    refine ⟨?_, ?_, ?_, ?_, ?_, ?_⟩
    · intro h
      rw [if_pos h]
    · intro h
      have hp : extLower f.originalname ≠ ".pdf".data := by
        rw [h]
        decide
      rw [if_neg hp, if_pos h]
    · intro h
      have hp : extLower f.originalname ≠ ".pdf".data := by
        rw [h]
        decide
      have hd : extLower f.originalname ≠ ".docx".data := by
        rw [h]
        decide
      rw [if_neg hp, if_neg hd, if_pos h]
    · intro h
      have hp : extLower f.originalname ≠ ".pdf".data := by
        rw [h]
        decide
      have hd : extLower f.originalname ≠ ".docx".data := by
        rw [h]
        decide
      have hc : extLower f.originalname ≠ ".csv".data := by
        rw [h]
        decide
      rw [if_neg hp, if_neg hd, if_neg hc, if_pos h]
    · intro h
      simp only [List.mem_cons, List.not_mem_nil, or_false, not_or] at h
      obtain ⟨hp, hd, hc, hx⟩ := h
      rw [if_neg hp, if_neg hd, if_neg hc, if_neg hx]
    · by_cases hp : extLower f.originalname = ".pdf".data
      · rw [if_pos hp]
        exact ⟨rfl, E.pdfText f.bytes, rfl⟩
      · rw [if_neg hp]
        by_cases hd : extLower f.originalname = ".docx".data
        · rw [if_pos hd]
          exact ⟨rfl, E.docxText f.bytes, rfl⟩
        · rw [if_neg hd]
          by_cases hc : extLower f.originalname = ".csv".data
          · rw [if_pos hc]
            exact ⟨rfl, "CSV preview (first rows):\n".data ++
              E.jsonStringify ((E.csvRecords f.bytes).take 30), rfl⟩
          · rw [if_neg hc]
            by_cases hx : extLower f.originalname = ".xlsx".data
            · rw [if_pos hx]
              exact ⟨rfl, "XLSX preview (CSV):\n".data ++
                (E.xlsxRead f.bytes).sheetCsv ((E.xlsxRead f.bytes).sheetNames.headD []), rfl⟩
            · rw [if_neg hx]
              exact ⟨rfl, E.utf8 f.bytes, rfl⟩

/-- Witness for C2: a concrete `.pdf` upload with a non-image MIME type takes
the PDF branch of the dispatch. -/
theorem extractFromFile_dispatch_spec_witness :
    extractFromFile testOracles (some ⟨"doc.PDF".data, "application/pdf".data, "xyz".data⟩) =
      ⟨truncateText (testOracles.pdfText "xyz".data) 12000, none⟩ :=
  ((extractFromFile_dispatch_spec testOracles
    ⟨"doc.PDF".data, "application/pdf".data, "xyz".data⟩).2 (by decide)).1 (by decide)

/-- C4: a login with non-empty uid and password matching no stored record
(same uid AND same password) answers 401 with the invalid-credentials error,
never 200, whatever other users exist, and leaves the session unchanged. -/
theorem login_invalid_spec (data : Store) (sess : Session) (uid pw : List Char)
    (hu : uid ≠ []) (hp : pw ≠ [])
    (hnone : ∀ u ∈ data.users, ¬(u.uid = uid ∧ u.password = pw)) :
    login data sess uid pw =
      (⟨401, some "Invalid credentials".data, false, none⟩, sess) ∧
    (login data sess uid pw).1.status ≠ 200 := by
  have hcond : ¬(uid = [] ∨ pw = []) := not_or.mpr ⟨hu, hp⟩
  have hfind : data.users.find? (fun u => u.uid == uid && u.password == pw) = none := by
    rw [List.find?_eq_none]
    intro u hu'
    have h := hnone u hu'
    simp only [Bool.and_eq_true, beq_iff_eq]
    exact fun hc => h ⟨hc.1, hc.2⟩
  have heq : login data sess uid pw =
      (⟨401, some "Invalid credentials".data, false, none⟩, sess) := by
    have hunfold : login data sess uid pw =
        (if uid = [] ∨ pw = [] then
          (⟨400, some "UID and password required".data, false, none⟩, sess)
        else
          match data.users.find? (fun u => u.uid == uid && u.password == pw) with
          | none => (⟨401, some "Invalid credentials".data, false, none⟩, sess)
          | some u =>
            (⟨200, none, true, some (u.nickname == [])⟩, ⟨u.uid, u.nickname⟩)) := rfl
    rw [hunfold, if_neg hcond, hfind]
  refine ⟨heq, ?_⟩
  rw [heq]
  show (401 : Nat) ≠ 200
  decide

/-- Witness for C4: a store holding user `a` with password `right`; logging
in as `a` with password `wrong` is rejected and the session untouched. -/
theorem login_invalid_spec_witness :
    login ⟨[⟨"a".data, "right".data, "nick".data⟩]⟩ ⟨[], []⟩ "a".data "wrong".data =
      (⟨401, some "Invalid credentials".data, false, none⟩, ⟨[], []⟩) :=
  (login_invalid_spec ⟨[⟨"a".data, "right".data, "nick".data⟩]⟩ ⟨[], []⟩
    "a".data "wrong".data (by decide) (by decide) (by decide)).1

/-- C5: a nickname update on a session holding no user id answers 401, with
the store contents unchanged and no read or write of the credential file. -/
theorem nickname_unauth_spec (data : Store) (sess : Session) (raw : List Char)
    (h : sess.uid = []) :
    nicknameHandler data sess raw =
      ⟨⟨401, some "Not authenticated".data, false, none⟩, data, sess, []⟩ := by
  have hunfold : nicknameHandler data sess raw =
      (if sess.uid = [] then
        ⟨⟨401, some "Not authenticated".data, false, none⟩, data, sess, []⟩
      else
        if trimJs raw = [] then
          ⟨⟨400, some "Nickname required".data, false, none⟩, data, sess, []⟩
        else
          match data.users.find? (fun u => u.uid == sess.uid) with
          | none =>
            ⟨⟨404, some "User not found".data, false, none⟩, data, sess, [FsOp.read]⟩
          | some _ =>
            ⟨⟨200, none, true, some (trimJs raw)⟩,
             ⟨setNicknameFirst data.users sess.uid (trimJs raw)⟩,
             ⟨sess.uid, trimJs raw⟩,
             [FsOp.read, FsOp.write]⟩) := rfl
  rw [hunfold, if_pos h]

/-- Witness for C5: an unauthenticated session, a populated store, a valid
nickname in the body — the handler still answers 401 and touches nothing. -/
theorem nickname_unauth_spec_witness :
    nicknameHandler ⟨[⟨"a".data, "pw".data, []⟩]⟩ ⟨[], []⟩ "Neo".data =
      ⟨⟨401, some "Not authenticated".data, false, none⟩,
       ⟨[⟨"a".data, "pw".data, []⟩]⟩, ⟨[], []⟩, []⟩ :=
  nickname_unauth_spec ⟨[⟨"a".data, "pw".data, []⟩]⟩ ⟨[], []⟩ "Neo".data rfl

/-- C6: on an authenticated session whose uid has a record in the store,
a successful nickname update followed by the session endpoint (in the same
session) reports authenticated, the same uid, and exactly the trimmed
nickname just set. -/
theorem nickname_session_roundtrip_spec (data : Store) (sess : Session)
    (raw : List Char) (huid : sess.uid ≠ []) (htrim : trimJs raw ≠ [])
    (hex : ∃ u ∈ data.users, u.uid = sess.uid) :
    (nicknameHandler data sess raw).resp.ok = true ∧
    (nicknameHandler data sess raw).resp.nickname = some (trimJs raw) ∧
    sessionHandler (nicknameHandler data sess raw).sess =
      ⟨true, some sess.uid, some (trimJs raw)⟩ := by
  obtain ⟨u, hu, huu⟩ := hex
  have hfind : (data.users.find? (fun v => v.uid == sess.uid)).isSome := by
    rw [List.find?_isSome]
    exact ⟨u, hu, by simp [huu]⟩
  obtain ⟨w, hw⟩ := Option.isSome_iff_exists.mp hfind
  have hunfold : nicknameHandler data sess raw =
      (if sess.uid = [] then
        ⟨⟨401, some "Not authenticated".data, false, none⟩, data, sess, []⟩
      else
        if trimJs raw = [] then
          ⟨⟨400, some "Nickname required".data, false, none⟩, data, sess, []⟩
        else
          match data.users.find? (fun v => v.uid == sess.uid) with
          | none =>
            ⟨⟨404, some "User not found".data, false, none⟩, data, sess, [FsOp.read]⟩
          | some _ =>
            ⟨⟨200, none, true, some (trimJs raw)⟩,
             ⟨setNicknameFirst data.users sess.uid (trimJs raw)⟩,
             ⟨sess.uid, trimJs raw⟩,
             [FsOp.read, FsOp.write]⟩) := rfl
  rw [hunfold, if_neg huid, if_neg htrim, hw]
  refine ⟨rfl, rfl, ?_⟩
  show sessionHandler ⟨sess.uid, trimJs raw⟩ = ⟨true, some sess.uid, some (trimJs raw)⟩
  have hb : (sess.uid != []) = true := bne_iff_ne.mpr huid
  simp only [sessionHandler, if_neg huid, if_neg htrim, hb]

/-- Witness for C6: user `a` logs a nickname of `  Neo  `; the session
endpoint then reports the trimmed `Neo`. -/
theorem nickname_session_roundtrip_spec_witness :
    (nicknameHandler ⟨[⟨"a".data, "pw".data, []⟩]⟩ ⟨"a".data, []⟩
        "  Neo  ".data).resp.ok = true ∧
    sessionHandler (nicknameHandler ⟨[⟨"a".data, "pw".data, []⟩]⟩ ⟨"a".data, []⟩
        "  Neo  ".data).sess = ⟨true, some "a".data, some "Neo".data⟩ := by
  have h := nickname_session_roundtrip_spec ⟨[⟨"a".data, "pw".data, []⟩]⟩
    ⟨"a".data, []⟩ "  Neo  ".data (by decide) (by decide)
    ⟨⟨"a".data, "pw".data, []⟩, by decide, rfl⟩
  have htrim : trimJs "  Neo  ".data = "Neo".data := by decide
  exact ⟨h.1, by rw [h.2.2, htrim]⟩

/-- C9: reading the credential store is total and never fatal — a missing
users file yields the empty store, a file whose contents the JSON parser
rejects yields the empty store, and the operations consulting the store
then behave as if no users exist: login is rejected with 401 and a nickname
lookup ends in 404 for every request. -/
theorem readUsers_total_spec (jp : List Char → Option Store) (raw : List Char) :
    readUsers jp none = ⟨[]⟩ ∧
    (jp (if raw = [] then "\x7b\"users\":[]\x7d".data else raw) = none →
      readUsers jp (some raw) = ⟨[]⟩) ∧
    (∀ sess uid pw, uid ≠ [] → pw ≠ [] →
      (login (readUsers jp none) sess uid pw).1.status = 401) ∧
    (∀ sess raw2, sess.uid ≠ [] → trimJs raw2 ≠ [] →
      (nicknameHandler (readUsers jp none) sess raw2).resp.status = 404) := by
  refine ⟨rfl, ?_, ?_, ?_⟩
  · intro h
    have hunfold : readUsers jp (some raw) =
        (match jp (if raw = [] then "\x7b\"users\":[]\x7d".data else raw) with
        | none => (⟨[]⟩ : Store)
        | some d => d) := rfl
    rw [hunfold, h]
  · intro sess uid pw hu hp
    have h := (login_invalid_spec (readUsers jp none) sess uid pw hu hp
      (by intro u hu'; exact absurd hu' (List.not_mem_nil u))).1
    rw [h]
  · intro sess raw2 huid htrim
    have hunfold : nicknameHandler (readUsers jp none) sess raw2 =
        (if sess.uid = [] then
          ⟨⟨401, some "Not authenticated".data, false, none⟩, readUsers jp none, sess, []⟩
        else
          if trimJs raw2 = [] then
            ⟨⟨400, some "Nickname required".data, false, none⟩, readUsers jp none, sess, []⟩
          else
            match (readUsers jp none).users.find? (fun u => u.uid == sess.uid) with
            | none =>
              ⟨⟨404, some "User not found".data, false, none⟩, readUsers jp none, sess,
                [FsOp.read]⟩
            | some _ =>
              ⟨⟨200, none, true, some (trimJs raw2)⟩,
               ⟨setNicknameFirst (readUsers jp none).users sess.uid (trimJs raw2)⟩,
               ⟨sess.uid, trimJs raw2⟩,
               [FsOp.read, FsOp.write]⟩) := rfl
    rw [hunfold, if_neg huid, if_neg htrim]
    rfl

/-- Witness for C9: a parser that rejects everything still produces an empty
store on a non-empty file, and login against the store read from a missing
file is rejected for a concrete non-empty credential pair. -/
theorem readUsers_total_spec_witness :
    readUsers (fun _ => none) (some "garbage".data) = ⟨[]⟩ ∧
    (login (readUsers (fun _ => none) none) ⟨[], []⟩ "a".data "b".data).1.status = 401 := by
  have h := readUsers_total_spec (fun _ => none) "garbage".data
  exact ⟨h.2.1 rfl, h.2.2.1 ⟨[], []⟩ "a".data "b".data (by decide) (by decide)⟩

/-- C8: `uploadToR2` returns null and performs no network I/O unless all four
object-store settings (endpoint, access key, secret key, bucket) are
present; when enabled it issues exactly one PUT, and it returns a public URL
only when `R2_PUBLIC_URL` is configured — otherwise null even though the PUT
was performed. -/
theorem uploadToR2_spec (env : Env) (E : Extractors) (nowRand : List Char)
    (f : UploadedFile) :
    ((env "R2_ENDPOINT".data = [] ∨ env "R2_ACCESS_KEY_ID".data = [] ∨
      env "R2_SECRET_ACCESS_KEY".data = [] ∨ env "R2_BUCKET".data = []) →
      uploadToR2 env E nowRand f = (none, [])) ∧
    (r2Enabled env = true →
      (uploadToR2 env E nowRand f).2 =
        [NetCall.r2Put (env "R2_BUCKET".data) (r2Key nowRand f) (r2ContentType E f)] ∧
      (env "R2_PUBLIC_URL".data = [] → (uploadToR2 env E nowRand f).1 = none) ∧
      (env "R2_PUBLIC_URL".data ≠ [] →
        (uploadToR2 env E nowRand f).1 =
          some (stripTrailingSlash (env "R2_PUBLIC_URL".data) ++ "/".data ++
            r2Key nowRand f))) := by
  have hunfold : uploadToR2 env E nowRand f =
      (if r2Enabled env = false then (none, [])
      else if env "R2_PUBLIC_URL".data ≠ [] then
        (some (stripTrailingSlash (env "R2_PUBLIC_URL".data) ++ "/".data ++
          r2Key nowRand f),
         [NetCall.r2Put (env "R2_BUCKET".data) (r2Key nowRand f) (r2ContentType E f)])
      else
        (none,
         [NetCall.r2Put (env "R2_BUCKET".data) (r2Key nowRand f) (r2ContentType E f)])) :=
    rfl
  constructor
  · intro h
    have hdis : r2Enabled env = false := by
      unfold r2Enabled
      rcases h with h | h | h | h <;> simp [h]
    rw [hunfold, if_pos hdis]
  · intro hen
    have hen' : ¬ r2Enabled env = false := by
      rw [hen]
      decide
    rw [hunfold, if_neg hen']
    by_cases hpub : env "R2_PUBLIC_URL".data ≠ []
    · rw [if_pos hpub]
      exact ⟨rfl, fun h => absurd h hpub, fun _ => rfl⟩
    · rw [if_neg hpub]
      exact ⟨rfl, fun _ => rfl, fun h => absurd h hpub⟩

/-- Witness for C8: with no configuration the upload is a no-op returning
null; with the four settings but no public base URL, exactly one PUT happens
and the result is still null. -/
theorem uploadToR2_spec_witness :
    uploadToR2 envEmpty testOracles "t".data ⟨"a.bin".data, [], "x".data⟩ = (none, []) ∧
    (uploadToR2 envR2NoPublic testOracles "t".data ⟨"a.bin".data, [], "x".data⟩).1 = none ∧
    (uploadToR2 envR2NoPublic testOracles "t".data ⟨"a.bin".data, [], "x".data⟩).2 =
      [NetCall.r2Put "bkt".data (r2Key "t".data ⟨"a.bin".data, [], "x".data⟩)
        (r2ContentType testOracles ⟨"a.bin".data, [], "x".data⟩)] := by
  have h1 := (uploadToR2_spec envEmpty testOracles "t".data
    ⟨"a.bin".data, [], "x".data⟩).1 (Or.inl rfl)
  have h2 := (uploadToR2_spec envR2NoPublic testOracles "t".data
    ⟨"a.bin".data, [], "x".data⟩).2 (by decide)
  exact ⟨h1, h2.2.1 (by decide), h2.1⟩

/-- C3: an authenticated bot request whose botId has no configured model or
no configured key answers 501 with the not-configured error and performs no
outbound network call — neither the generative API POST nor the object-store
PUT — and no parts are sent. -/
theorem bot_config_gate_spec (env : Env) (E : Extractors) (nowRand : List Char)
    (apiOk : Bool) (apiStatus : Nat) (sess : Session) (botId : List Char)
    (req : BotReq) (hauth : sess.uid ≠ [])
    (hcfg : env (botEnvVar botId "_MODEL".data) = [] ∨
      env (botEnvVar botId "_KEY".data) = []) :
    botHandler env E nowRand apiOk apiStatus sess botId req =
      ⟨501, some "Bot API not configured".data, [], none, none⟩ := by
  have hunfold : botHandler env E nowRand apiOk apiStatus sess botId req =
      (if sess.uid = [] then
        ⟨401, some "Not authenticated".data, [], none, none⟩
      else if env (botEnvVar botId "_MODEL".data) = [] ∨
          env (botEnvVar botId "_KEY".data) = [] then
        ⟨501, some "Bot API not configured".data, [], none, none⟩
      else
        (fun fu parts =>
          if apiOk then
            (⟨200, none, fu.2 ++ [NetCall.generate (env (botEnvVar botId "_MODEL".data))
              (buildSystemPrompt botId req.chartType) parts], some parts, fu.1⟩ : BotOutcome)
          else
            ⟨apiStatus, some "Bot request failed".data,
              fu.2 ++ [NetCall.generate (env (botEnvVar botId "_MODEL".data))
                (buildSystemPrompt botId req.chartType) parts], some parts, fu.1⟩)
          (match req.file with
            | some f => uploadToR2 env E nowRand f
            | none => (none, []))
          (assembleParts req.text (extractFromFile E req.file))) := rfl
  rw [hunfold, if_neg hauth, if_pos hcfg]

/-- Witness for C3: an authenticated session asking for bot `report` in an
empty environment is answered 501 with no calls. -/
theorem bot_config_gate_spec_witness :
    botHandler envEmpty testOracles [] true 200 ⟨"u1".data, "nick".data⟩
        "report".data ⟨[], [], none⟩ =
      ⟨501, some "Bot API not configured".data, [], none, none⟩ :=
  bot_config_gate_spec envEmpty testOracles [] true 200 ⟨"u1".data, "nick".data⟩
    "report".data ⟨[], [], none⟩ (by decide) (Or.inl rfl)

/-- C10: an upload whose declared MIME type starts with `audio/` or `video/`
is rejected by the multer fileFilter with 400 and the fixed error message,
before the handler — and with it the extraction pipeline and any outbound
call — runs. -/
theorem audio_video_reject_spec (env : Env) (E : Extractors) (nowRand : List Char)
    (apiOk : Bool) (apiStatus : Nat) (sess : Session) (botId : List Char)
    (req : BotReq) (f : UploadedFile) (hf : req.file = some f)
    (hav : startsWithSeg f.mimetype "audio/".data = true ∨
      startsWithSeg f.mimetype "video/".data = true) :
    botPipeline env E nowRand apiOk apiStatus sess botId req =
      ⟨400, some "Audio/video files are not supported.".data, [], none, none⟩ := by
  have hff : fileFilter f = some "Audio/video files are not supported.".data := by
    unfold fileFilter
    rcases hav with h | h <;> simp [h]
  have hunfold : botPipeline env E nowRand apiOk apiStatus sess botId req =
      (match req.file with
      | some f' =>
        (match fileFilter f' with
        | some msg =>
          ⟨(errorMiddleware msg).1, some (errorMiddleware msg).2, [], none, none⟩
        | none => botHandler env E nowRand apiOk apiStatus sess botId req)
      | none => botHandler env E nowRand apiOk apiStatus sess botId req) := rfl
  rw [hunfold, hf]
  show (match fileFilter f with
    | some msg =>
      (⟨(errorMiddleware msg).1, some (errorMiddleware msg).2, [], none, none⟩ : BotOutcome)
    | none => botHandler env E nowRand apiOk apiStatus sess botId req) =
    ⟨400, some "Audio/video files are not supported.".data, [], none, none⟩
  rw [hff]
  rfl

/-- Witness for C10: a concrete `audio/mpeg` upload is rejected with 400 and
no outbound call regardless of bot configuration. -/
theorem audio_video_reject_spec_witness :
    botPipeline envR2NoPublic testOracles [] true 200 ⟨"u1".data, "n".data⟩
        "report".data ⟨"hi".data, [], some ⟨"song.mp3".data, "audio/mpeg".data, "x".data⟩⟩ =
      ⟨400, some "Audio/video files are not supported.".data, [], none, none⟩ :=
  audio_video_reject_spec envR2NoPublic testOracles [] true 200
    ⟨"u1".data, "n".data⟩ "report".data
    ⟨"hi".data, [], some ⟨"song.mp3".data, "audio/mpeg".data, "x".data⟩⟩
    ⟨"song.mp3".data, "audio/mpeg".data, "x".data⟩ rfl (Or.inl (by decide))

/-- C7: for an authenticated, configured request to bot `data` with a
non-empty chart type and no file, the generative call carries a system
instruction containing the literal chart-type interpolation, and the sent
parts carry no file-content marker (given the user text itself does not
contain that marker); in general the parts are assembled in fixed order —
user text, then marker-prefixed file text, then inline image — and when all
three are absent a single `No input provided.` placeholder part is used. -/
theorem data_bot_prompt_parts_spec (env : Env) (E : Extractors)
    (nowRand : List Char) (apiOk : Bool) (apiStatus : Nat) (sess : Session)
    (req : BotReq) (hauth : sess.uid ≠ [])
    (hm : env (botEnvVar "data".data "_MODEL".data) ≠ [])
    (hk : env (botEnvVar "data".data "_KEY".data) ≠ [])
    (hchart : req.chartType ≠ []) (hfile : req.file = none) :
    (∃ ps : List MsgPart,
      (botHandler env E nowRand apiOk apiStatus sess "data".data req).sentParts =
        some ps ∧
      (botHandler env E nowRand apiOk apiStatus sess "data".data req).calls =
        [NetCall.generate (env (botEnvVar "data".data "_MODEL".data))
          (buildSystemPrompt "data".data req.chartType) ps] ∧
      containsSeg (buildSystemPrompt "data".data req.chartType)
        ("Include output for a ".data ++ req.chartType ++ " chart.".data) = true ∧
      (containsSeg req.text fileContentMarker = false →
        ∀ p ∈ ps, ∀ t, p = MsgPart.text t →
          containsSeg t fileContentMarker = false)) ∧
    (∀ (userText : List Char) (extracted : Extracted),
      userText ≠ [] ∨ extracted.text ≠ [] ∨ extracted.inlineImage ≠ none →
      assembleParts userText extracted =
        (if userText ≠ [] then [MsgPart.text userText] else []) ++
        (if extracted.text ≠ [] then
          [MsgPart.text (fileContentMarker ++ extracted.text)] else []) ++
        (match extracted.inlineImage with
          | some im => [MsgPart.inlineData im.mimeType im.data]
          | none => [])) ∧
    (∀ (userText : List Char) (extracted : Extracted),
      userText = [] → extracted.text = [] → extracted.inlineImage = none →
      assembleParts userText extracted =
        [MsgPart.text "No input provided.".data]) := by
  have hbsp : buildSystemPrompt "data".data req.chartType =
      ("You are a data analytics assistant. " ++
        "Provide dataset overview, descriptive stats, patterns, and insights. ").data ++
      ("Include output for a ".data ++ req.chartType ++ " chart.".data) := by
    unfold buildSystemPrompt
    rw [if_neg (by decide), if_neg (by decide), if_neg (by decide),
      if_pos rfl, if_pos hchart]
  have hps0 : assembleParts req.text (extractFromFile E none) =
      (if req.text ≠ [] then [MsgPart.text req.text]
        else [MsgPart.text "No input provided.".data]) := by
    by_cases hu : req.text = []
    · rw [hu]
      rfl
    · have hunf : assembleParts req.text (extractFromFile E none) =
          (if (if req.text ≠ [] then [MsgPart.text req.text] else []) ++ [] ++ [] = []
            then [MsgPart.text "No input provided.".data]
            else (if req.text ≠ [] then [MsgPart.text req.text] else []) ++ [] ++ []) :=
        rfl
      rw [hunf, if_pos hu, if_pos hu]
      rfl
  refine ⟨?_, ?_, ?_⟩
  · have hcfg' : ¬(env (botEnvVar "data".data "_MODEL".data) = [] ∨
        env (botEnvVar "data".data "_KEY".data) = []) := not_or.mpr ⟨hm, hk⟩
    have hunfold : botHandler env E nowRand apiOk apiStatus sess "data".data req =
        (if sess.uid = [] then
          ⟨401, some "Not authenticated".data, [], none, none⟩
        else if env (botEnvVar "data".data "_MODEL".data) = [] ∨
            env (botEnvVar "data".data "_KEY".data) = [] then
          ⟨501, some "Bot API not configured".data, [], none, none⟩
        else
          (fun fu parts =>
            if apiOk then
              (⟨200, none, fu.2 ++ [NetCall.generate
                (env (botEnvVar "data".data "_MODEL".data))
                (buildSystemPrompt "data".data req.chartType) parts],
                some parts, fu.1⟩ : BotOutcome)
            else
              ⟨apiStatus, some "Bot request failed".data,
                fu.2 ++ [NetCall.generate (env (botEnvVar "data".data "_MODEL".data))
                  (buildSystemPrompt "data".data req.chartType) parts],
                some parts, fu.1⟩)
            (match req.file with
              | some f => uploadToR2 env E nowRand f
              | none => (none, []))
            (assembleParts req.text (extractFromFile E req.file))) := rfl
    rw [hunfold, if_neg hauth, if_neg hcfg', hfile]
    refine ⟨assembleParts req.text (extractFromFile E none), ?_, ?_, ?_, ?_⟩
    · cases apiOk <;> rfl
    · cases apiOk <;> rfl
    · rw [hbsp]
      exact containsSeg_append_right _ _
    · intro hut p hp t hpt
      rw [hps0] at hp
      by_cases hu : req.text = []
      · rw [if_neg (fun hne => hne hu)] at hp
        have hpe : p = MsgPart.text "No input provided.".data := List.mem_singleton.mp hp
        rw [hpe] at hpt
        cases hpt
        decide
      · rw [if_pos hu] at hp
        have hpe : p = MsgPart.text req.text := List.mem_singleton.mp hp
        rw [hpe] at hpt
        cases hpt
        exact hut
  · intro userText extracted hne
    have hunf : assembleParts userText extracted =
        (if (if userText ≠ [] then [MsgPart.text userText] else []) ++
            (if extracted.text ≠ [] then
              [MsgPart.text (fileContentMarker ++ extracted.text)] else []) ++
            (match extracted.inlineImage with
              | some im => [MsgPart.inlineData im.mimeType im.data]
              | none => []) = []
          then [MsgPart.text "No input provided.".data]
          else (if userText ≠ [] then [MsgPart.text userText] else []) ++
            (if extracted.text ≠ [] then
              [MsgPart.text (fileContentMarker ++ extracted.text)] else []) ++
            (match extracted.inlineImage with
              | some im => [MsgPart.inlineData im.mimeType im.data]
              | none => [])) := rfl
    have hne' : (if userText ≠ [] then [MsgPart.text userText] else []) ++
        (if extracted.text ≠ [] then
          [MsgPart.text (fileContentMarker ++ extracted.text)] else []) ++
        (match extracted.inlineImage with
          | some im => [MsgPart.inlineData im.mimeType im.data]
          | none => []) ≠ [] := by
      intro hcontra
      rw [List.append_eq_nil, List.append_eq_nil] at hcontra
      obtain ⟨⟨h1, h2⟩, h3⟩ := hcontra
      rcases hne with h | h | h
      · rw [if_pos h] at h1
        exact List.cons_ne_nil _ _ h1
      · rw [if_pos h] at h2
        exact List.cons_ne_nil _ _ h2
      · cases himg : extracted.inlineImage with
        | none => exact h himg
        | some im =>
          rw [himg] at h3
          exact List.cons_ne_nil _ _ h3
    rw [hunf, if_neg hne']
  · intro userText extracted hu he hi
    subst hu
    cases extracted with
    | mk et ei =>
      simp only at he hi
      subst he
      subst hi
      rfl

/-- Witness for C7: with chart type `bar`, the data-bot system instruction
contains the interpolated chart sentence, and an all-absent input assembles
to the single placeholder part. -/
theorem data_bot_prompt_parts_spec_witness :
    containsSeg (buildSystemPrompt "data".data "bar".data)
      ("Include output for a ".data ++ "bar".data ++ " chart.".data) = true ∧
    assembleParts [] ⟨[], none⟩ = [MsgPart.text "No input provided.".data] := by
  have h := data_bot_prompt_parts_spec envBotData testOracles [] true 200
    ⟨"u".data, "n".data⟩ ⟨"hello".data, "bar".data, none⟩
    (by decide) (by decide) (by decide) (by decide) rfl
  obtain ⟨⟨ps, hps, hcalls, hcontain, hfree⟩, horder, hplace⟩ := h
  exact ⟨hcontain, hplace [] ⟨[], none⟩ rfl rfl rfl⟩
